import Mathlib

/-!
Shallow embedding of `src/enhanced_webdriver/EnhancedWebDriver.py`
(repository Tesla2000/EnhancedWebdriver).

The class `EnhancedWebDriver` wraps a Selenium `WebDriver`.  Calls into the
wrapped library (element location, clickability waits, clicks, key sends,
`quit`) interact with an external browser; we model their outcomes as oracle
values supplied in small environment structures, and each Python method as a
Lean function from its environment and the driver state to a result
(`Except Exc α` — `.error` means the Python call ends with an uncaught
exception), the updated driver state, and the list of observable events the
call performs, in order.
-/

namespace EnhancedWebdriver

/-- Selenium locator strategies (`selenium.webdriver.common.by.By`). -/
inductive By
  | xpath
  | id
  | name
  | className
  | cssSelector
  | linkText
  | tagName
  deriving DecidableEq, Repr

/-- Exceptions that can cross the wrapped-library boundary.  The first four
are the specific classes imported by the module; `otherWebDriver` stands for
any other subclass of `selenium.common.exceptions.WebDriverException`
(e.g. `ElementNotInteractableException`); `nonSelenium` stands for a Python
exception not derived from `WebDriverException`. -/
inductive Exc
  | noSuchElement
  | timeout
  | staleElementReference
  | elementClickIntercepted
  | otherWebDriver (n : String)
  | nonSelenium (n : String)
  deriving DecidableEq, Repr

/-- Whether the exception is an instance of `WebDriverException`
(the base class caught by `write`). -/
def Exc.isWebDriverException : Exc → Bool
  | .nonSelenium _ => false
  | _ => true

/-- Whether the exception is one of the four specific known wrapped-library
exceptions named by the specification: element not found, timeout,
staleness, click interception. -/
def Exc.isKnownFour : Exc → Bool
  | .noSuchElement => true
  | .timeout => true
  | .staleElementReference => true
  | .elementClickIntercepted => true
  | _ => false

/-- Whether the exception is in the tuple of `click`'s second `except`
clause: `(NoSuchElementException, TimeoutException,
StaleElementReferenceException)`. -/
def Exc.isClickCaughtTuple : Exc → Bool
  | .noSuchElement => true
  | .timeout => true
  | .staleElementReference => true
  | _ => false

/-- A located DOM element as observable through the wrapped driver. -/
structure WebElement where
  elemId : Nat
  text : String
  selected : Bool
  deriving DecidableEq, Repr

/-- Result of a call that may end with a Python exception. -/
abbrev Res (α : Type) := Except Exc α

/-- Observable events a wrapper method performs, in program order. -/
inductive Event
  | setImplicitWait (seconds : ℚ)
  | findElementCall (strategy : By) (value : String)
  | findElementsCall (strategy : By) (value : String)
  | sleepFor (t : ℚ)
  | waitUntilClickable (timeout : ℚ)
  | clickAttempt (el : WebElement)
  | clearCall (el : WebElement)
  | sendKeysCall (el : WebElement) (keys : String)
  | sleepFunctionCall
  | quitCall
  deriving DecidableEq, Repr

/-- The wrapper's session state that the embedded methods touch: the
session-wide implicit-wait timeout (set by `implicitly_wait`) and whether
`quit` has been called. -/
structure DriverState where
  implicitWait : ℚ
  quitted : Bool
  deriving DecidableEq, Repr

/-- Outcome of running an embedded method: Python-level result, resulting
driver state, and the events performed. -/
structure RunOutcome (α : Type) where
  result : Res α
  state : DriverState
  events : List Event
  deriving Repr

/-- Oracle for one `find_element` call made by `_wait`: its result and how
long the call blocks (the browser answers within the implicit wait). -/
structure WaitEnv where
  findResult : Res WebElement
  findDuration : ℚ
  deriving Repr

/-- Outcome of `_wait`, additionally recording the total blocking duration
and the implicit-wait timeout in force at the moment `find_element` runs. -/
structure WaitOutcome where
  result : Res WebElement
  state : DriverState
  events : List Event
  duration : ℚ
  waitAtFind : ℚ
  deriving Repr

/-- `EnhancedWebDriver._wait(value, seconds, by)`:
`self.implicitly_wait(seconds)`, then `element = self.find_element(by, value)`,
then `sleep(0.5)`, then `return element`.  If `find_element` raises, the
exception propagates before the sleep. -/
def waitRun (env : WaitEnv) (value : String) (seconds : ℚ) (strategy : By)
    (s : DriverState) : WaitOutcome :=
  let s' : DriverState := { s with implicitWait := seconds }
  match env.findResult with
  | .error e =>
      { result := .error e
        state := s'
        events := [.setImplicitWait seconds, .findElementCall strategy value]
        duration := env.findDuration
        waitAtFind := s'.implicitWait }
  | .ok el =>
      { result := .ok el
        state := s'
        events := [.setImplicitWait seconds, .findElementCall strategy value,
                   .sleepFor (1/2)]
        duration := env.findDuration + 1/2
        waitAtFind := s'.implicitWait }

/-- `EnhancedWebDriver.is_element_present(value, seconds, by)`:
`try: self._wait(value, seconds, by); return True
except NoSuchElementException: return False`. -/
def isElementPresentRun (env : WaitEnv) (value : String) (seconds : ℚ)
    (strategy : By) (s : DriverState) : RunOutcome Bool :=
  let w := waitRun env value seconds strategy s
  match w.result with
  | .ok _ => { result := .ok true, state := w.state, events := w.events }
  | .error .noSuchElement =>
      { result := .ok false, state := w.state, events := w.events }
  | .error e => { result := .error e, state := w.state, events := w.events }

/-- `EnhancedWebDriver.get_text_of_element(value, by, seconds)`:
`return self._wait(value, seconds, by).text`. -/
def getTextOfElementRun (env : WaitEnv) (value : String) (seconds : ℚ)
    (strategy : By) (s : DriverState) : RunOutcome String :=
  let w := waitRun env value seconds strategy s
  match w.result with
  | .ok el => { result := .ok el.text, state := w.state, events := w.events }
  | .error e => { result := .error e, state := w.state, events := w.events }

/-- `EnhancedWebDriver.get_all_elements(element, by)`:
`return self.find_elements(by=by, value=element)` — no implicit-wait
change, no sleep, no exception handling. -/
def getAllElementsRun (found : List WebElement) (element : String)
    (strategy : By) (s : DriverState) :
    List WebElement × DriverState × List Event :=
  (found, s, [.findElementsCall strategy element])

/-- Oracle for one run of `EnhancedWebDriver.click`.  `wait1/clickable1/click1`
are the outcomes of the try-body's `_wait`, `WebDriverWait(...).until(
element_to_be_clickable(element))` and `.click()`; `wait2/clickable2/click2`
are the outcomes of the same three calls inside the
`except ElementClickInterceptedException` handler; `sleepFn` is the outcome
of the caller-supplied `sleep_function` (`none` when not passed). -/
structure ClickEnv where
  wait1 : WaitEnv
  clickable1 : WebElement → Res WebElement
  click1 : WebElement → Res Unit
  sleepFn : Option (Res Unit)
  wait2 : WaitEnv
  clickable2 : WebElement → Res WebElement
  click2 : WebElement → Res Unit

/-- Body of `click`'s `except ElementClickInterceptedException` handler:
`sleep(0.01)` then
`WebDriverWait(self, seconds).until(element_to_be_clickable(self._wait(value, seconds, by))).click()`.
Any exception raised here propagates (sibling `except` clauses of the same
`try` do not catch exceptions raised inside a handler); on success control
falls through to the `return True` after the `try` statement. -/
def clickRetry (env : ClickEnv) (value : String) (strategy : By) (seconds : ℚ)
    (s : DriverState) : RunOutcome Bool :=
  let w := waitRun env.wait2 value seconds strategy s
  match w.result with
  | .error e =>
      { result := .error e, state := w.state
        events := .sleepFor (1/100) :: w.events }
  | .ok el =>
      match env.clickable2 el with
      | .error e =>
          { result := .error e, state := w.state
            events := .sleepFor (1/100) :: w.events ++ [.waitUntilClickable seconds] }
      | .ok el2 =>
          match env.click2 el2 with
          | .error e =>
              { result := .error e, state := w.state
                events := .sleepFor (1/100) :: w.events
                  ++ [.waitUntilClickable seconds, .clickAttempt el2] }
          | .ok _ =>
              { result := .ok true, state := w.state
                events := .sleepFor (1/100) :: w.events
                  ++ [.waitUntilClickable seconds, .clickAttempt el2] }

/-- Dispatch of an exception `e` raised in `click`'s try-body over its two
`except` clauses: `ElementClickInterceptedException` runs the retry handler
(then `return True` on fall-through); the tuple
`(NoSuchElementException, TimeoutException, StaleElementReferenceException)`
gives `return False`; any other exception propagates. -/
def clickDispatch (env : ClickEnv) (value : String) (strategy : By)
    (seconds : ℚ) (s : DriverState) (e : Exc) (evts : List Event) :
    RunOutcome Bool :=
  match e with
  | .elementClickIntercepted =>
      let r := clickRetry env value strategy seconds s
      { result := r.result, state := r.state, events := evts ++ r.events }
  | .noSuchElement => { result := .ok false, state := s, events := evts }
  | .timeout => { result := .ok false, state := s, events := evts }
  | .staleElementReference =>
      { result := .ok false, state := s, events := evts }
  | e => { result := .error e, state := s, events := evts }

/-- `EnhancedWebDriver.click(value, sleep_function, by, seconds)`:
`try: element = self._wait(value, seconds, by);
WebDriverWait(self, seconds).until(element_to_be_clickable(element)).click();
if sleep_function: sleep_function()` with the two `except` clauses of
`clickDispatch`, and `return True` after the `try` statement. -/
def clickRun (env : ClickEnv) (value : String) (strategy : By) (seconds : ℚ)
    (s : DriverState) : RunOutcome Bool :=
  let w := waitRun env.wait1 value seconds strategy s
  match w.result with
  | .error e => clickDispatch env value strategy seconds w.state e w.events
  | .ok el =>
      match env.clickable1 el with
      | .error e =>
          clickDispatch env value strategy seconds w.state e
            (w.events ++ [.waitUntilClickable seconds])
      | .ok el1 =>
          match env.click1 el1 with
          | .error e =>
              clickDispatch env value strategy seconds w.state e
                (w.events ++ [.waitUntilClickable seconds, .clickAttempt el1])
          | .ok _ =>
              match env.sleepFn with
              | none =>
                  { result := .ok true, state := w.state
                    events := w.events
                      ++ [.waitUntilClickable seconds, .clickAttempt el1] }
              | some (.ok _) =>
                  { result := .ok true, state := w.state
                    events := w.events
                      ++ [.waitUntilClickable seconds, .clickAttempt el1,
                          .sleepFunctionCall] }
              | some (.error e) =>
                  clickDispatch env value strategy seconds w.state e
                    (w.events ++ [.waitUntilClickable seconds,
                                  .clickAttempt el1, .sleepFunctionCall])

/-- Whether an event is a `.click()` attempt. -/
def isClickAttempt : Event → Bool
  | .clickAttempt _ => true
  | .setImplicitWait _ => false
  | .findElementCall _ _ => false
  | .findElementsCall _ _ => false
  | .sleepFor _ => false
  | .waitUntilClickable _ => false
  | .clearCall _ => false
  | .sendKeysCall _ _ => false
  | .sleepFunctionCall => false
  | .quitCall => false

/-- Number of `.click()` attempts recorded in an event list. -/
def countClickAttempts (evts : List Event) : Nat :=
  evts.countP isClickAttempt

/-- Oracle for one run of `EnhancedWebDriver.write`: outcomes of the
try-body's `_wait`, `element.clear()`, `element.send_keys(str(keys))` and
the optional caller-supplied `sleep_function`. -/
structure WriteEnv where
  wait : WaitEnv
  clearRes : Res Unit
  sendKeysRes : Res Unit
  sleepFn : Option (Res Unit)

/-- `EnhancedWebDriver.write(value, keys, sleep_function, by, time)`:
try-body locates, clears, sends keys, runs the optional sleep function;
`except WebDriverException: return False`; `return True` after the `try`.
An exception not derived from `WebDriverException` propagates. -/
def writeRun (env : WriteEnv) (value keys : String) (strategy : By)
    (time : ℚ) (s : DriverState) : RunOutcome Bool :=
  let w := waitRun env.wait value time strategy s
  match w.result with
  | .error e =>
      if e.isWebDriverException then
        { result := .ok false, state := w.state, events := w.events }
      else { result := .error e, state := w.state, events := w.events }
  | .ok el =>
      match env.clearRes with
      | .error e =>
          if e.isWebDriverException then
            { result := .ok false, state := w.state
              events := w.events ++ [.clearCall el] }
          else
            { result := .error e, state := w.state
              events := w.events ++ [.clearCall el] }
      | .ok _ =>
          match env.sendKeysRes with
          | .error e =>
              if e.isWebDriverException then
                { result := .ok false, state := w.state
                  events := w.events ++ [.clearCall el, .sendKeysCall el keys] }
              else
                { result := .error e, state := w.state
                  events := w.events ++ [.clearCall el, .sendKeysCall el keys] }
          | .ok _ =>
              match env.sleepFn with
              | none =>
                  { result := .ok true, state := w.state
                    events := w.events ++ [.clearCall el, .sendKeysCall el keys] }
              | some (.ok _) =>
                  { result := .ok true, state := w.state
                    events := w.events
                      ++ [.clearCall el, .sendKeysCall el keys,
                          .sleepFunctionCall] }
              | some (.error e) =>
                  if e.isWebDriverException then
                    { result := .ok false, state := w.state
                      events := w.events
                        ++ [.clearCall el, .sendKeysCall el keys,
                            .sleepFunctionCall] }
                  else
                    { result := .error e, state := w.state
                      events := w.events
                        ++ [.clearCall el, .sendKeysCall el keys,
                            .sleepFunctionCall] }

/-- An attribute value held in a Python instance dictionary; `sessionHandle`
models the live-browser session object. -/
inductive PyValue
  | str (s : String)
  | num (n : Nat)
  | sessionHandle (sid : Nat)
  | pyNone
  deriving DecidableEq, Repr

/-- A Python instance `__dict__`: an association list from attribute name to
value, most recent binding first. -/
abbrev AttrDict := List (String × PyValue)

/-- The heap of instance dictionaries; a `PyObj` holds an index into it, so
two objects whose indices coincide share one dictionary (the effect of
`instance.__dict__ = web_driver.__dict__`). -/
structure Heap where
  dicts : List AttrDict
  deriving DecidableEq, Repr

/-- A Python object, identified by the reference to its `__dict__`. -/
structure PyObj where
  dictRef : Nat
  deriving DecidableEq, Repr

/-- The attribute state of an object: its `__dict__` contents. -/
def attrsOf (h : Heap) (o : PyObj) : AttrDict :=
  h.dicts.getD o.dictRef []

/-- `getattr(o, k)`: look the name up in the object's `__dict__`. -/
def getAttr (h : Heap) (o : PyObj) (k : String) : Option PyValue :=
  (attrsOf h o).lookup k

/-- `setattr(o, k, v)`: bind the name in the object's `__dict__` (the new
binding shadows any earlier one). -/
def setAttr (h : Heap) (o : PyObj) (k : String) (v : PyValue) : Heap :=
  ⟨h.dicts.set o.dictRef ((k, v) :: attrsOf h o)⟩

/-- `EnhancedWebDriver.create(web_driver)` on the branch where an underlying
driver instance is passed: `instance = object.__new__(EnhancedWebDriver)`
allocates a fresh object with a fresh empty `__dict__`, then
`instance.__dict__ = web_driver.__dict__` rebinds the new object's
dictionary reference to the driver's dictionary, and `instance` is
returned.  (The `web_driver is None` branch constructs a Chrome driver and
is outside this claim.) -/
def create (h : Heap) (webDriver : PyObj) : PyObj × Heap :=
  let h' : Heap := ⟨h.dicts ++ [[]]⟩
  (⟨webDriver.dictRef⟩, h')

/-- A session state before any call: implicit wait at the Selenium default
of zero, session live. -/
def initialState : DriverState := { implicitWait := 0, quitted := false }

/-- `True` when `is_element_present` converts the exception `e`, raised by
element location, into a boolean return instead of propagating it — i.e.
`e` is caught by its `except NoSuchElementException` clause. -/
def isElementPresentCatches (e : Exc) : Bool :=
  match (isElementPresentRun ⟨.error e, 0⟩ "v" 1 By.xpath initialState).result with
  | .ok _ => true
  | .error _ => false

/-- `True` when `write` converts the exception `e`, raised by element
location, into a boolean return instead of propagating it — i.e. `e` is
caught by its `except WebDriverException` clause. -/
def writeCatches (e : Exc) : Bool :=
  match (writeRun ⟨⟨.error e, 0⟩, .ok (), .ok (), none⟩ "v" "k" By.xpath 1
      initialState).result with
  | .ok _ => true
  | .error _ => false

/-- `True` when `click` converts the exception `e`, raised by element
location, directly into `return False` via its second `except` clause (the
retry environment is made to fail with a non-Selenium error so that the
interception handler, if entered, propagates instead of succeeding). -/
def clickConvertsToFalse (e : Exc) : Bool :=
  match (clickRun
      ⟨⟨.error e, 0⟩, fun el => .ok el, fun _ => .ok (), none,
       ⟨.error (.nonSelenium "RetryProbe"), 0⟩, fun el => .ok el,
       fun _ => .ok ()⟩
      "v" By.xpath 1 initialState).result with
  | .ok false => true
  | _ => false

/-- `WebDriver.quit()`: ends the shared browser session. -/
def quitRun (s : DriverState) : DriverState × List Event :=
  ({ s with quitted := true }, [.quitCall])

/-- `EnhancedWebDriver.__exit__(exc_type, exc_val, exc_tb)`: its body is
exactly `self.quit()`; the method ends without `return`, so it returns
`None` (modelled as the `Option Bool` value `none`, whose truthiness
decides suppression in the `with`-statement protocol). -/
def exitRun (excInfo : Option Exc) (s : DriverState) :
    DriverState × List Event × Option Bool :=
  match excInfo with
  | _ =>
      let (s', ev) := quitRun s
      (s', ev, none)

/-- The `with EnhancedWebDriver.create(...) as driver:` protocol around a
body with outcome `bodyOutcome`: `__enter__` returns `self`, the body runs,
`__exit__` is called with the exception info (or `None` on normal
completion), and a body exception is re-raised unless `__exit__` returned a
truthy value. -/
def withBlock (bodyOutcome : Res Unit) (s : DriverState) :
    Res Unit × DriverState × List Event :=
  match bodyOutcome with
  | .ok _ =>
      let (s', ev, _ret) := exitRun none s
      (.ok (), s', ev)
  | .error e =>
      let (s', ev, ret) := exitRun (some e) s
      (if ret.getD false then .ok () else .error e, s', ev)

/-! ## Theorems -/

/-- `_wait` performs no `.click()` attempt. -/
theorem countClickAttempts_waitRun (env : WaitEnv) (value : String)
    (seconds : ℚ) (strategy : By) (s : DriverState) :
    countClickAttempts (waitRun env value seconds strategy s).events = 0 := by
  cases h : env.findResult <;>
    simp [waitRun, h, countClickAttempts, isClickAttempt]

/-- The interception handler performs at most one `.click()` attempt. -/
theorem countClickAttempts_clickRetry (env : ClickEnv) (value : String)
    (strategy : By) (seconds : ℚ) (s : DriverState) :
    countClickAttempts (clickRetry env value strategy seconds s).events ≤ 1 := by
  have h0 := countClickAttempts_waitRun env.wait2 value seconds strategy s
  simp only [countClickAttempts] at h0 ⊢
  unfold clickRetry
  rcases hw : (waitRun env.wait2 value seconds strategy s).result with e | el
  · simp only [hw, List.countP_cons, List.countP_append, List.countP_nil,
      isClickAttempt, h0]
    norm_num
  · simp only [hw]
    rcases hc : env.clickable2 el with e | el2
    · simp only [hc, List.countP_cons, List.countP_append, List.countP_nil,
        isClickAttempt, h0]
      norm_num
    · simp only [hc]
      rcases hk : env.click2 el2 with e | u
      · simp only [hk, List.countP_cons, List.countP_append, List.countP_nil,
          isClickAttempt, h0]
        norm_num
      · simp only [hk, List.countP_cons, List.countP_append, List.countP_nil,
          isClickAttempt, h0]
        norm_num

/-- Exception dispatch adds at most one `.click()` attempt to the events of
the try-body. -/
theorem countClickAttempts_clickDispatch (env : ClickEnv) (value : String)
    (strategy : By) (seconds : ℚ) (s : DriverState) (e : Exc)
    (evts : List Event) :
    countClickAttempts (clickDispatch env value strategy seconds s e evts).events
      ≤ countClickAttempts evts + 1 := by
  have h1 := countClickAttempts_clickRetry env value strategy seconds s
  simp only [countClickAttempts] at h1 ⊢
  cases e <;> (simp [clickDispatch, List.countP_append]; try omega)

/-- A whole `click` call performs at most two `.click()` attempts. -/
theorem countClickAttempts_clickRun_le_two (env : ClickEnv) (value : String)
    (strategy : By) (seconds : ℚ) (s : DriverState) :
    countClickAttempts (clickRun env value strategy seconds s).events ≤ 2 := by
  have h0 := countClickAttempts_waitRun env.wait1 value seconds strategy s
  unfold clickRun
  rcases hw : (waitRun env.wait1 value seconds strategy s).result with e | el
  · simp only [hw]
    have hd := countClickAttempts_clickDispatch env value strategy seconds
      (waitRun env.wait1 value seconds strategy s).state e
      (waitRun env.wait1 value seconds strategy s).events
    omega
  · simp only [hw]
    rcases hc : env.clickable1 el with e | el1
    · simp only [hc]
      have hd := countClickAttempts_clickDispatch env value strategy seconds
        (waitRun env.wait1 value seconds strategy s).state e
        ((waitRun env.wait1 value seconds strategy s).events
          ++ [.waitUntilClickable seconds])
      have hevts : countClickAttempts
          ((waitRun env.wait1 value seconds strategy s).events
            ++ [Event.waitUntilClickable seconds])
          = countClickAttempts
            (waitRun env.wait1 value seconds strategy s).events := by
        simp [countClickAttempts, List.countP_append, List.countP_cons,
          isClickAttempt]
      omega
    · simp only [hc]
      rcases hk : env.click1 el1 with e | u
      · simp only [hk]
        have hd := countClickAttempts_clickDispatch env value strategy seconds
          (waitRun env.wait1 value seconds strategy s).state e
          ((waitRun env.wait1 value seconds strategy s).events
            ++ [.waitUntilClickable seconds, .clickAttempt el1])
        have hevts : countClickAttempts
            ((waitRun env.wait1 value seconds strategy s).events
              ++ [Event.waitUntilClickable seconds, Event.clickAttempt el1])
            = countClickAttempts
              (waitRun env.wait1 value seconds strategy s).events + 1 := by
          simp [countClickAttempts, List.countP_append, List.countP_cons,
            isClickAttempt]
        omega
      · simp only [hk]
        rcases hs : env.sleepFn with _ | r
        · simp only [hs]
          simp only [countClickAttempts] at h0 ⊢
          simp [List.countP_append, List.countP_cons, isClickAttempt]
          omega
        · rcases r with e | u2
          · simp only [hs]
            have hd := countClickAttempts_clickDispatch env value strategy
              seconds (waitRun env.wait1 value seconds strategy s).state e
              ((waitRun env.wait1 value seconds strategy s).events
                ++ [.waitUntilClickable seconds, .clickAttempt el1,
                    .sleepFunctionCall])
            have hevts : countClickAttempts
                ((waitRun env.wait1 value seconds strategy s).events
                  ++ [Event.waitUntilClickable seconds,
                      Event.clickAttempt el1, Event.sleepFunctionCall])
                = countClickAttempts
                  (waitRun env.wait1 value seconds strategy s).events + 1 := by
              simp [countClickAttempts, List.countP_append, List.countP_cons,
                isClickAttempt]
            omega
          · simp only [hs]
            simp only [countClickAttempts] at h0 ⊢
            simp [List.countP_append, List.countP_cons, isClickAttempt]
            omega

/-- C4: For every underlying driver instance passed to `create`, the wrapper
takes over the underlying driver's internal attribute state at construction
time (its attributes are exactly the driver's, so it adds no persistent
state of its own), and thereafter the wrapper and the underlying driver
share one dictionary: an attribute written through either object — in
particular the live browser session handle — is read back through the
other, until `quit`. -/
theorem create_absorbs_and_shares_driver_state
    (h : Heap) (driver : PyObj) (k : String) (v : PyValue)
    (href : driver.dictRef < h.dicts.length) :
    attrsOf (create h driver).2 (create h driver).1 = attrsOf h driver ∧
    (create h driver).1.dictRef = driver.dictRef ∧
    getAttr (setAttr (create h driver).2 (create h driver).1 k v) driver k
      = some v ∧
    getAttr (setAttr (create h driver).2 driver k v) (create h driver).1 k
      = some v := by
  have hlen : driver.dictRef < (h.dicts ++ [[]]).length := by
    simp only [List.length_append]
    omega
  refine ⟨?_, rfl, ?_, ?_⟩
  · simp [create, attrsOf, List.getD_eq_getElem?_getD,
      List.getElem?_append_left href]
  · simp [create, setAttr, getAttr, attrsOf, List.getD_eq_getElem?_getD,
      List.getElem?_set_eq_of_lt _ hlen, List.lookup]
  · simp [create, setAttr, getAttr, attrsOf, List.getD_eq_getElem?_getD,
      List.getElem?_set_eq_of_lt _ hlen, List.lookup]

/-- Witness for `create_absorbs_and_shares_driver_state` at a one-object
heap. -/
theorem create_absorbs_and_shares_driver_state_witness :
    attrsOf (create ⟨[[("session", PyValue.sessionHandle 7)]]⟩ ⟨0⟩).2
        (create ⟨[[("session", PyValue.sessionHandle 7)]]⟩ ⟨0⟩).1
      = attrsOf ⟨[[("session", PyValue.sessionHandle 7)]]⟩ ⟨0⟩ ∧
    (create ⟨[[("session", PyValue.sessionHandle 7)]]⟩ ⟨0⟩).1.dictRef = 0 ∧
    getAttr
        (setAttr (create ⟨[[("session", PyValue.sessionHandle 7)]]⟩ ⟨0⟩).2
          (create ⟨[[("session", PyValue.sessionHandle 7)]]⟩ ⟨0⟩).1
          "session" (PyValue.sessionHandle 9))
        ⟨0⟩ "session" = some (PyValue.sessionHandle 9) ∧
    getAttr
        (setAttr (create ⟨[[("session", PyValue.sessionHandle 7)]]⟩ ⟨0⟩).2
          ⟨0⟩ "session" (PyValue.sessionHandle 9))
        (create ⟨[[("session", PyValue.sessionHandle 7)]]⟩ ⟨0⟩).1
        "session" = some (PyValue.sessionHandle 9) :=
  create_absorbs_and_shares_driver_state
    ⟨[[("session", PyValue.sessionHandle 7)]]⟩ ⟨0⟩ "session"
    (PyValue.sessionHandle 9) (by decide)

/-- C5: for every locator value, strategy and timeout, `is_element_present`
returns `True` when the element is found within the wait and `False` when
element location raises `NoSuchElementException` — a boolean in both cases
rather than a propagated exception. -/
theorem is_element_present_returns_bool
    (env : WaitEnv) (value : String) (seconds : ℚ) (strategy : By)
    (s : DriverState) (el : WebElement) :
    (env.findResult = .ok el →
      (isElementPresentRun env value seconds strategy s).result = .ok true) ∧
    (env.findResult = .error .noSuchElement →
      (isElementPresentRun env value seconds strategy s).result = .ok false) := by
  constructor <;> intro h <;> simp [isElementPresentRun, waitRun, h]

/-- Witness for `is_element_present_returns_bool`: a found element yields
`True`. -/
theorem is_element_present_returns_bool_witness :
    (isElementPresentRun ⟨.ok ⟨1, "hi", false⟩, 0⟩ "v" 1 By.xpath
      initialState).result = .ok true :=
  (is_element_present_returns_bool ⟨.ok ⟨1, "hi", false⟩, 0⟩ "v" 1 By.xpath
    initialState ⟨1, "hi", false⟩).1 rfl

/-- C6: `_wait` sets the polling timeout to its `seconds` parameter before
locating the element (the implicit wait in force at the `find_element` call
is `seconds`), so when the location call respects that timeout the whole
call blocks for at most `seconds` plus the fixed `sleep(0.5)`. -/
theorem wait_blocks_boundedly
    (env : WaitEnv) (value : String) (seconds : ℚ) (strategy : By)
    (s : DriverState) (hd : env.findDuration ≤ seconds) :
    (waitRun env value seconds strategy s).waitAtFind = seconds ∧
    (waitRun env value seconds strategy s).duration ≤ seconds + 1/2 := by
  rcases env with ⟨fr, fd⟩
  cases fr <;> simp [waitRun] at hd ⊢ <;> linarith

/-- Witness for `wait_blocks_boundedly` at a concrete environment. -/
theorem wait_blocks_boundedly_witness :
    (waitRun ⟨.ok ⟨1, "hi", false⟩, 1⟩ "v" 2 By.xpath initialState).waitAtFind
        = 2 ∧
    (waitRun ⟨.ok ⟨1, "hi", false⟩, 1⟩ "v" 2 By.xpath
        initialState).duration ≤ 2 + 1/2 :=
  wait_blocks_boundedly ⟨.ok ⟨1, "hi", false⟩, 1⟩ "v" 2 By.xpath initialState
    (by norm_num)

/-- C7: for every locator value, strategy and timeout, `get_text_of_element`
returns exactly the `text` property of the element located by the
underlying driver's element-location API with that strategy and value, with
no transformation of the result. -/
theorem get_text_of_element_thin_delegation
    (env : WaitEnv) (value : String) (seconds : ℚ) (strategy : By)
    (s : DriverState) (el : WebElement) (h : env.findResult = .ok el) :
    (getTextOfElementRun env value seconds strategy s).result = .ok el.text ∧
    Event.findElementCall strategy value
      ∈ (getTextOfElementRun env value seconds strategy s).events := by
  simp [getTextOfElementRun, waitRun, h]

/-- Witness for `get_text_of_element_thin_delegation` on an element whose
text is "hi". -/
theorem get_text_of_element_thin_delegation_witness :
    (getTextOfElementRun ⟨.ok ⟨1, "hi", false⟩, 0⟩ "v" 1 By.xpath
        initialState).result = .ok "hi" ∧
    Event.findElementCall By.xpath "v"
      ∈ (getTextOfElementRun ⟨.ok ⟨1, "hi", false⟩, 0⟩ "v" 1 By.xpath
        initialState).events :=
  get_text_of_element_thin_delegation ⟨.ok ⟨1, "hi", false⟩, 0⟩ "v" 1
    By.xpath initialState ⟨1, "hi", false⟩ rfl

/-- C8: every `_wait` call leaves the session's implicit-wait timeout equal
to its `seconds` argument — on both the found and the not-found path — and
never restores the previous value, so the new timeout is still in force
after a subsequent operation (here `get_all_elements`) that does not set
it. -/
theorem wait_mutates_implicit_wait_lastingly
    (env : WaitEnv) (value : String) (seconds : ℚ) (strategy : By)
    (s : DriverState) (found : List WebElement) (element : String)
    (strategy2 : By) :
    (waitRun env value seconds strategy s).state.implicitWait = seconds ∧
    (getAllElementsRun found element strategy2
        (waitRun env value seconds strategy s).state).2.1.implicitWait
      = seconds := by
  cases h : env.findResult <;> simp [waitRun, getAllElementsRun, h]

/-- C9: exiting the wrapper's context manager calls `quit` on the shared
browser session on every exit path — `__exit__` quits the session and
returns `None` whatever exception info it receives, so a body exception is
re-raised (not suppressed) and a normal completion stays normal. -/
theorem exit_always_quits_never_suppresses
    (excInfo : Option Exc) (s : DriverState) (body : Res Unit) :
    (exitRun excInfo s).1.quitted = true ∧
    (exitRun excInfo s).2.1 = [Event.quitCall] ∧
    (exitRun excInfo s).2.2 = none ∧
    (withBlock body s).2.1.quitted = true ∧
    Event.quitCall ∈ (withBlock body s).2.2 ∧
    (withBlock body s).1 = body := by
  cases body <;> simp [exitRun, quitRun, withBlock]

/-- A sample located element used by concrete witnesses. -/
def elW : WebElement := ⟨1, "ok", false⟩

/-- Click environment in which every wrapped-library call succeeds. -/
def clickEnvSuccess : ClickEnv :=
  ⟨⟨.ok elW, 0⟩, fun el => .ok el, fun _ => .ok (), none,
   ⟨.error (.nonSelenium "X"), 0⟩, fun el => .ok el, fun _ => .ok ()⟩

/-- Click environment in which element location raises
`NoSuchElementException`. -/
def clickEnvNoSuch : ClickEnv :=
  ⟨⟨.error .noSuchElement, 0⟩, fun el => .ok el, fun _ => .ok (), none,
   ⟨.error (.nonSelenium "X"), 0⟩, fun el => .ok el, fun _ => .ok ()⟩

/-- Click environment in which the clickability wait raises
`TimeoutException`. -/
def clickEnvTimedOut : ClickEnv :=
  ⟨⟨.ok elW, 0⟩, fun _ => .error .timeout, fun _ => .ok (), none,
   ⟨.error (.nonSelenium "X"), 0⟩, fun el => .ok el, fun _ => .ok ()⟩

/-- Click environment in which the first click attempt is intercepted and
the retry succeeds. -/
def clickEnvIntercepted : ClickEnv :=
  ⟨⟨.ok elW, 0⟩, fun el => .ok el,
   fun _ => .error .elementClickIntercepted, none,
   ⟨.ok elW, 0⟩, fun el => .ok el, fun _ => .ok ()⟩

/-- C1: for every locator value, strategy and timeout, `click` returns
`True` when the located element is successfully clicked, and when element
location or the clickability wait fails with `NoSuchElementException`,
`TimeoutException` or `StaleElementReferenceException` it catches the
exception and returns `False`. -/
theorem click_returns_bool_on_known_failures
    (env : ClickEnv) (value : String) (strategy : By) (seconds : ℚ)
    (s : DriverState) (el el1 : WebElement) (e : Exc) :
    (env.wait1.findResult = .ok el → env.clickable1 el = .ok el1 →
      env.click1 el1 = .ok () → env.sleepFn = none →
      (clickRun env value strategy seconds s).result = .ok true) ∧
    (e.isClickCaughtTuple = true → env.wait1.findResult = .error e →
      (clickRun env value strategy seconds s).result = .ok false) ∧
    (e.isClickCaughtTuple = true → env.wait1.findResult = .ok el →
      env.clickable1 el = .error e →
      (clickRun env value strategy seconds s).result = .ok false) := by
  refine ⟨?_, ?_, ?_⟩
  · intro h1 h2 h3 h4
    simp [clickRun, waitRun, h1, h2, h3, h4]
  · intro he h1
    cases e <;>
      simp_all [clickRun, clickDispatch, waitRun, Exc.isClickCaughtTuple]
  · intro he h1 h2
    cases e <;>
      simp_all [clickRun, clickDispatch, waitRun, Exc.isClickCaughtTuple]

/-- Witness for `click_returns_bool_on_known_failures` on three concrete
environments: success, element not found, clickability timeout. -/
theorem click_returns_bool_on_known_failures_witness :
    (clickRun clickEnvSuccess "v" By.xpath 1 initialState).result
      = .ok true ∧
    (clickRun clickEnvNoSuch "v" By.xpath 1 initialState).result
      = .ok false ∧
    (clickRun clickEnvTimedOut "v" By.xpath 1 initialState).result
      = .ok false :=
  ⟨(click_returns_bool_on_known_failures clickEnvSuccess "v" By.xpath 1
      initialState elW elW .timeout).1 rfl rfl rfl rfl,
   (click_returns_bool_on_known_failures clickEnvNoSuch "v" By.xpath 1
      initialState elW elW .noSuchElement).2.1 rfl rfl,
   (click_returns_bool_on_known_failures clickEnvTimedOut "v" By.xpath 1
      initialState elW elW .timeout).2.2 rfl rfl rfl⟩

/-- C2: when the first click attempt raises
`ElementClickInterceptedException`, `click` performs exactly one retry —
it sleeps `0.01`, re-locates the element, waits for it to be clickable and
clicks it again — and no run of `click` ever performs more than two click
attempts. -/
theorem click_retries_exactly_once_on_interception
    (env : ClickEnv) (value : String) (strategy : By) (seconds : ℚ)
    (s : DriverState) (el el1 el2 el3 : WebElement)
    (h1 : env.wait1.findResult = .ok el)
    (h2 : env.clickable1 el = .ok el1)
    (h3 : env.click1 el1 = .error .elementClickIntercepted)
    (h4 : env.wait2.findResult = .ok el2)
    (h5 : env.clickable2 el2 = .ok el3) :
    (clickRun env value strategy seconds s).events =
      [Event.setImplicitWait seconds, Event.findElementCall strategy value,
       Event.sleepFor (1/2), Event.waitUntilClickable seconds,
       Event.clickAttempt el1, Event.sleepFor (1/100),
       Event.setImplicitWait seconds, Event.findElementCall strategy value,
       Event.sleepFor (1/2), Event.waitUntilClickable seconds,
       Event.clickAttempt el3] ∧
    countClickAttempts (clickRun env value strategy seconds s).events = 2 ∧
    ∀ (env2 : ClickEnv) (value2 : String) (strategy2 : By) (seconds2 : ℚ)
      (s2 : DriverState),
      countClickAttempts (clickRun env2 value2 strategy2 seconds2 s2).events
        ≤ 2 := by
  have hev : (clickRun env value strategy seconds s).events =
      [Event.setImplicitWait seconds, Event.findElementCall strategy value,
       Event.sleepFor (1/2), Event.waitUntilClickable seconds,
       Event.clickAttempt el1, Event.sleepFor (1/100),
       Event.setImplicitWait seconds, Event.findElementCall strategy value,
       Event.sleepFor (1/2), Event.waitUntilClickable seconds,
       Event.clickAttempt el3] := by
    rcases hk : env.click2 el3 with e | u <;>
      simp [clickRun, clickDispatch, clickRetry, waitRun, h1, h2, h3, h4,
        h5, hk]
  refine ⟨hev, ?_, fun env2 value2 strategy2 seconds2 s2 =>
    countClickAttempts_clickRun_le_two env2 value2 strategy2 seconds2 s2⟩
  rw [hev]
  simp [countClickAttempts, List.countP_cons, List.countP_nil, isClickAttempt]

/-- Witness for `click_retries_exactly_once_on_interception` on a concrete
intercepted-then-retried environment. -/
theorem click_retries_exactly_once_on_interception_witness :
    (clickRun clickEnvIntercepted "v" By.xpath 1 initialState).events =
      [Event.setImplicitWait 1, Event.findElementCall By.xpath "v",
       Event.sleepFor (1/2), Event.waitUntilClickable 1,
       Event.clickAttempt elW, Event.sleepFor (1/100),
       Event.setImplicitWait 1, Event.findElementCall By.xpath "v",
       Event.sleepFor (1/2), Event.waitUntilClickable 1,
       Event.clickAttempt elW] ∧
    countClickAttempts
      (clickRun clickEnvIntercepted "v" By.xpath 1 initialState).events
      = 2 :=
  ⟨(click_retries_exactly_once_on_interception clickEnvIntercepted "v"
      By.xpath 1 initialState elW elW elW elW rfl rfl rfl rfl rfl).1,
   (click_retries_exactly_once_on_interception clickEnvIntercepted "v"
      By.xpath 1 initialState elW elW elW elW rfl rfl rfl rfl rfl).2.1⟩

/-- C3 counterexample: `write` catches
`ElementNotInteractableException` — a `WebDriverException` that is none of
the four specific known exceptions (element not found, timeout, staleness,
click interception) — and converts it to `False`, so not every caught
exception is one of the four. -/
theorem write_catches_broader_than_known_four :
    writeCatches (.otherWebDriver "ElementNotInteractableException")
      = true ∧
    Exc.isKnownFour (.otherWebDriver "ElementNotInteractableException")
      = false :=
  ⟨rfl, rfl⟩

/-- C3 amended: `is_element_present` catches exactly the element-not-found
exception, and `click` converts to `False` exactly element-not-found,
timeout and staleness (interception instead triggers its single retry);
`write`, however, catches every exception of the wrapped library's base
class `WebDriverException` — a strictly broader class than the four
specific known exceptions. -/
theorem catch_scope_per_operation (e : Exc) :
    (isElementPresentCatches e = true ↔ e = .noSuchElement) ∧
    (writeCatches e = true ↔ e.isWebDriverException = true) ∧
    (clickConvertsToFalse e = true ↔ e.isClickCaughtTuple = true) := by
  cases e <;>
    simp [isElementPresentCatches, writeCatches, clickConvertsToFalse,
      isElementPresentRun, writeRun, clickRun, waitRun, clickDispatch,
      clickRetry, Exc.isWebDriverException, Exc.isClickCaughtTuple]

end EnhancedWebdriver
